import Mathlib

/-!
Verification development for the `musica-events` repository (`src/app.py`).

The program is a Flask application that aggregates, for one artist name,
data from four external providers: Ticketmaster (events), Spotify
(artist / top tracks / playlists), OpenWeather (weather) and Google Maps
(geocoding).  The shallow embedding below models the JSON values the
program manipulates, the Python dictionary / list operations it performs
on them (including the exceptions those operations raise on unexpected
shapes), and the four service functions plus the orchestration in the
POST branch of `index` (src/app.py lines 277-347).

Provider behaviour is a record of response functions: each HTTP request
either fails at the transport layer (`Except.error ()` — covering
connection errors, timeouts, non-2xx statuses raised by
`raise_for_status`, and bodies that fail JSON decoding, all of which are
`requests.exceptions.RequestException` in the requests library and are
caught by the services' `except` clauses) or yields a decoded JSON body.
Operations performed on a decoded body that do not exist for its type
(`.get` on a non-dict, indexing a missing key, ...) raise Python
exceptions that are NOT `RequestException` and therefore escape the
services' handlers; these are modelled with `Except.error (e : PyErr)`
propagating out of the embedded functions.  The Google Maps client call
`gmaps.geocode(city)` (line 320) is not wrapped in any try/except, so
any exception it raises propagates out of `index`.
-/

namespace MusicaEvents

/-- JSON values as manipulated by the program.  Numbers are modelled as
rationals; objects are ordered association lists with string keys (the
shape `json.loads` produces). -/
inductive Json where
  | null : Json
  | bool (b : Bool) : Json
  | num (q : ℚ) : Json
  | str (s : String) : Json
  | arr (elems : List Json) : Json
  | obj (fields : List (String × Json)) : Json

/-- Python exceptions that can escape the services' `except
requests.exceptions.RequestException` handlers, plus the exceptions the
un-wrapped Google Maps client can raise. -/
inductive PyErr where
  | attributeError : PyErr
  | keyError : PyErr
  | typeError : PyErr
  | indexError : PyErr
  | transportError : PyErr
deriving DecidableEq, Repr

/-- Python `j == lit` for a string literal `lit`: equality on strings,
`False` whenever `j` is a value of any other JSON type. -/
def Json.eqStr : Json → String → Bool
  | .str s, lit => s == lit
  | _, _ => false

/-- Python truthiness of a JSON value (`if x:`): `None`, `False`, `0`,
`""`, `[]` and `{}` are falsy. -/
def Json.truthy : Json → Bool
  | .null => false
  | .bool b => b
  | .num q => q != 0
  | .str s => s != ""
  | .arr xs => !xs.isEmpty
  | .obj fs => !fs.isEmpty

/-- First binding of a key in an object's field list (Python dicts have
unique keys, so first-match lookup coincides with dict lookup). -/
def lookupField : List (String × Json) → String → Option Json
  | [], _ => none
  | (k, v) :: rest, key => if k = key then some v else lookupField rest key

/-- Python `d.get(k, default)`: only dictionaries have `.get`; on any
other value the attribute access raises `AttributeError`. -/
def pyGetD : Json → String → Json → Except PyErr Json
  | .obj fs, k, d => .ok ((lookupField fs k).getD d)
  | _, _, _ => .error .attributeError

/-- Python `d[k]` for a string key: `KeyError` when the key is missing,
`TypeError` when the value is not a dictionary (string/list indices must
be integers; other types are not subscriptable). -/
def pyIndexKey : Json → String → Except PyErr Json
  | .obj fs, k =>
    match lookupField fs k with
    | some v => .ok v
    | none => .error .keyError
  | _, _ => .error .typeError

/-- Python `x[n]` for a natural-number index: element of a list (or the
one-character string of a string), `IndexError` out of range, `KeyError`
for a dict (our objects only have string keys, so an integer key is
always missing), `TypeError` otherwise. -/
def pyIndexNat : Json → Nat → Except PyErr Json
  | .arr xs, n =>
    match xs[n]? with
    | some v => .ok v
    | none => .error .indexError
  | .str s, n =>
    match s.data[n]? with
    | some c => .ok (.str (String.mk [c]))
    | none => .error .indexError
  | .obj _, _ => .error .keyError
  | _, _ => .error .typeError

/-- Replace the first binding of `k` (keeping its position, as Python
dict assignment does) or append a new binding at the end. -/
def setField : List (String × Json) → String → Json → List (String × Json)
  | [], k, v => [(k, v)]
  | (k', v') :: rest, k, v =>
    if k' = k then (k, v) :: rest else (k', v') :: setField rest k v

/-- Python `d[k] = v`: item assignment exists only for dictionaries. -/
def pySetItem : Json → String → Json → Except PyErr Json
  | .obj fs, k, v => .ok (.obj (setField fs k v))
  | _, _, _ => .error .typeError

/-- Python `random.choice(seq)` with the uniformly drawn index supplied
externally: an element of a list or a character of a string; empty
sequences give `IndexError` (via `pick % 0 = pick` being out of range);
non-sequences give `TypeError`. -/
def pyChoice (seq : Json) (pick : Nat) : Except PyErr Json :=
  match seq with
  | .arr xs =>
    match xs[pick % xs.length]? with
    | some v => .ok v
    | none => .error .indexError
  | .str s =>
    match s.data[pick % s.length]? with
    | some c => .ok (.str (String.mk [c]))
    | none => .error .indexError
  | _ => .error .typeError

/-- Python iteration `for x in v`: lists yield their elements, strings
their characters, dicts their keys; other values raise `TypeError`. -/
def pyIterate : Json → Except PyErr (List Json)
  | .arr xs => .ok xs
  | .str s => .ok (s.data.map fun c => .str (String.mk [c]))
  | .obj fs => .ok (fs.map fun kv => .str kv.fst)
  | _ => .error .typeError

/-- Python `str.capitalize()`: first character upper-cased, the rest
lower-cased. -/
def strCapitalize (s : String) : String :=
  match s.data with
  | [] => ""
  | c :: rest => String.mk (c.toUpper :: rest.map Char.toLower)

/-- Calling `.capitalize()` on a non-string raises `AttributeError`. -/
def pyCapitalize : Json → Except PyErr Json
  | .str s => .ok (.str (strCapitalize s))
  | _ => .error .attributeError

/-- Round-half-to-even on rationals, as Python's `round` is specified. -/
def roundHalfEven (q : ℚ) : ℤ :=
  let f : ℤ := ⌊q⌋
  if q - f < 1 / 2 then f
  else if q - f > 1 / 2 then f + 1
  else if f % 2 = 0 then f else f + 1

/-- Python `round(q, 1)`: round to one decimal place. -/
def round1 (q : ℚ) : ℚ := (roundHalfEven (q * 10) : ℚ) / 10

/-- Python `round(x, 1)` on a JSON value: numbers (and bools, which are
ints in Python) round; every other type raises `TypeError`. -/
def pyRound1 : Json → Except PyErr Json
  | .num q => .ok (.num (round1 q))
  | .bool b => .ok (.num (round1 (if b then 1 else 0)))
  | _ => .error .typeError

/-- Characters removed by Python `str.strip()` (the ASCII whitespace
characters; the program's inputs are form fields, for which these are
the relevant ones). -/
def isPySpace (c : Char) : Bool :=
  c = ' ' || c = '\t' || c = '\n' || c = '\r' || c = '\x0b' || c = '\x0c'

/-- Strip leading and trailing whitespace characters from a character
list. -/
def stripList (l : List Char) : List Char :=
  ((l.dropWhile isPySpace).reverse.dropWhile isPySpace).reverse

/-- Python `s.strip()`. -/
def pyStrip (s : String) : String :=
  String.mk (stripList s.data)

/-- One network request issued by the program, for tracking which calls
a run performs. -/
inductive Call where
  | spotifyToken : Call
  | spotifyArtistSearch (q : String) : Call
  | spotifyTopTracks (artistId : Json) : Call
  | spotifyPlaylistSearch (genre : Json) : Call
  | ticketmasterEvents (keyword : String) : Call
  | openWeather (city : Json) : Call
  | googleGeocode (city : Json) : Call

/-- Recognises the playlist-search request among the recorded calls. -/
def isPlaylistCall : Call → Bool
  | .spotifyPlaylistSearch _ => true
  | _ => false

/-- Behaviour of the external providers: for each request the transport
layer either fails (`.error ()`, covering connection errors, timeouts,
HTTP error statuses and JSON-decode failures — all caught as
`requests.exceptions.RequestException`) or delivers a decoded JSON body.
`geocode` models the Google Maps client call, whose failures are
arbitrary raised exceptions.  `randPick` is the externally drawn
uniform index used by `random.choice`. -/
structure Providers where
  tokenResp : Except Unit Json
  artistSearchResp : String → Except Unit Json
  topTracksResp : Json → Except Unit Json
  playlistSearchResp : Json → Except Unit Json
  eventsResp : String → Except Unit Json
  weatherResp : Json → Except Unit Json
  geocode : Json → Except PyErr Json
  randPick : Nat

/-- Exception-propagating sequencing of two Python evaluation steps: a
raised exception in the first step aborts the rest. -/
def exBind {α β : Type} (x : Except PyErr α) (f : α → Except PyErr β) :
    Except PyErr β :=
  match x with
  | .error e => .error e
  | .ok v => f v

/-- Body parsing of the Spotify artist search in `get_artist_info`
(src/app.py lines 177-180):
`artists = response.json().get("artists", {}).get("items", [])` then
`return artists[0] if artists else None`. -/
def parseArtistSearch (body : Json) : Except PyErr (Option Json) :=
  exBind (pyGetD body "artists" (.obj [])) fun artistsObj =>
  exBind (pyGetD artistsObj "items" (.arr [])) fun items =>
  if items.truthy then
    exBind (pyIndexNat items 0) fun a => .ok (some a)
  else .ok none

/-- `SpotifyService.get_artist_info` (src/app.py lines 144-184): token
request, search request, first item or `None`; any
`RequestException` is caught and yields `None`; exceptions raised while
picking the body apart propagate. -/
def get_artist_info (P : Providers) (artist_name : String) :
    Except PyErr (Option Json) × List Call :=
  match P.tokenResp with
  | .error _ => (.ok none, [.spotifyToken])
  | .ok tok =>
    match pyGetD tok "access_token" .null with
    | .error e => (.error e, [.spotifyToken])
    | .ok _ =>
      match P.artistSearchResp artist_name with
      | .error _ => (.ok none, [.spotifyToken, .spotifyArtistSearch artist_name])
      | .ok body =>
        (parseArtistSearch body, [.spotifyToken, .spotifyArtistSearch artist_name])

/-- `SpotifyService.get_top_tracks` (src/app.py lines 186-217): token
request, top-tracks request, `response.json().get("tracks", [])`;
`RequestException` yields `[]`. -/
def get_top_tracks (P : Providers) (artist_id : Json) :
    Except PyErr Json × List Call :=
  match P.tokenResp with
  | .error _ => (.ok (.arr []), [.spotifyToken])
  | .ok tok =>
    match pyGetD tok "access_token" .null with
    | .error e => (.error e, [.spotifyToken])
    | .ok _ =>
      match P.topTracksResp artist_id with
      | .error _ => (.ok (.arr []), [.spotifyToken, .spotifyTopTracks artist_id])
      | .ok body =>
        (pyGetD body "tracks" (.arr []), [.spotifyToken, .spotifyTopTracks artist_id])

/-- Body parsing of the playlist search (src/app.py line 246):
`response.json().get("playlists", {}).get("items", [])`. -/
def parsePlaylistSearch (body : Json) : Except PyErr Json :=
  exBind (pyGetD body "playlists" (.obj [])) fun pls =>
  pyGetD pls "items" (.arr [])

/-- `SpotifyService.get_playlists_by_genre` (src/app.py lines 219-250). -/
def get_playlists_by_genre (P : Providers) (genre : Json) :
    Except PyErr Json × List Call :=
  match P.tokenResp with
  | .error _ => (.ok (.arr []), [.spotifyToken])
  | .ok tok =>
    match pyGetD tok "access_token" .null with
    | .error e => (.error e, [.spotifyToken])
    | .ok _ =>
      match P.playlistSearchResp genre with
      | .error _ => (.ok (.arr []), [.spotifyToken, .spotifyPlaylistSearch genre])
      | .ok body =>
        (parsePlaylistSearch body, [.spotifyToken, .spotifyPlaylistSearch genre])

/-- Body parsing of the Ticketmaster response (src/app.py line 91):
`response.json().get("_embedded", {}).get("events", [])`. -/
def parseEvents (body : Json) : Except PyErr Json :=
  exBind (pyGetD body "_embedded" (.obj [])) fun emb =>
  pyGetD emb "events" (.arr [])

/-- `ConcertService.get_events` (src/app.py lines 55-96): the request is
made with `keyword = artist_name`, `size = 9`,
`classificationName = "Music"` and `sort = "date,asc"`; any
`RequestException` yields `[]`; the extracted events value is returned
unvalidated. -/
def get_events (P : Providers) (artist_name : String) :
    Except PyErr Json × List Call :=
  match P.eventsResp artist_name with
  | .error _ => (.ok (.arr []), [.ticketmasterEvents artist_name])
  | .ok body => (parseEvents body, [.ticketmasterEvents artist_name])

/-- The fixed snapshot for an empty or sentinel city
(src/app.py line 119). -/
def weatherNotSpecified : Json :=
  .obj [("description", .str "Ciudad no especificada"), ("temperature", .str "N/A")]

/-- The fixed snapshot for a failed weather request
(src/app.py line 136). -/
def weatherUnavailable : Json :=
  .obj [("description", .str "Datos no disponibles"), ("temperature", .str "N/A")]

/-- Body parsing of a successful OpenWeather response (src/app.py lines
130-133): `clima_data["weather"][0]["description"].capitalize()` and
`round(clima_data["main"]["temp"], 1)`.  Each lookup raises if the body
does not have the expected shape. -/
def parseWeather (clima : Json) : Except PyErr Json :=
  exBind (pyIndexKey clima "weather") fun w =>
  exBind (pyIndexNat w 0) fun w0 =>
  exBind (pyIndexKey w0 "description") fun d =>
  exBind (pyCapitalize d) fun dC =>
  exBind (pyIndexKey clima "main") fun m =>
  exBind (pyIndexKey m "temp") fun t =>
  exBind (pyRound1 t) fun tR =>
  .ok (.obj [("description", dC), ("temperature", tR)])

/-- `WeatherService.get_weather` (src/app.py lines 104-136): an empty or
sentinel city short-circuits with the fixed snapshot and no request;
otherwise one request (5 s timeout) whose `RequestException` failure
yields the unavailable snapshot and whose successful body is parsed by
`parseWeather`. -/
def get_weather (P : Providers) (city : Json) : Except PyErr Json × List Call :=
  if !city.truthy || city.eqStr "Ciudad desconocida" then
    (.ok weatherNotSpecified, [])
  else
    match P.weatherResp city with
    | .error _ => (.ok weatherUnavailable, [.openWeather city])
    | .ok clima => (parseWeather clima, [.openWeather city])

/-- The three result shapes the POST branch of `index` renders: the
"please write an artist" page (src/app.py line 283), the "no concert
found" page carrying whatever artist/track data was resolved (lines
307-312), and the full results page (lines 342-347). -/
inductive AggregationResult where
  | emptyInput : AggregationResult
  | noEventsFound (artistName : String) (artistInfo : Option Json)
      (topTracks : Json) : AggregationResult
  | success (artistName : String) (artistInfo : Option Json)
      (topTracks : Json) (events : List Json) : AggregationResult

/-- Python truthiness of the `artist_info` variable, which is `None` or
the JSON value `artists[0]` (`if artist_info:`, src/app.py lines 288 and
337). -/
def optTruthy : Option Json → Bool
  | none => false
  | some j => j.truthy

/-- The Spotify enrichment block of `index` (src/app.py lines 288-301):
when `artist_info` is truthy, read `artist_info["id"]`, fetch top
tracks, and when `artist_info.get("genres", [])` is truthy, fetch
playlists for the FIRST genre and attach a randomly chosen one as
`artist_info["playlist"]`.  Returns the (possibly updated) artist info
together with `top_tracks` (initialised to `[]`, line 274). -/
def spotifyEnrich (P : Providers) (artist_info : Option Json) :
    Except PyErr (Option Json × Json) × List Call :=
  match artist_info with
  | none => (.ok (none, .arr []), [])
  | some info =>
    if info.truthy = false then (.ok (some info, .arr []), [])
    else
      match pyIndexKey info "id" with
      | .error e => (.error e, [])
      | .ok artist_id =>
        match get_top_tracks P artist_id with
        | (.error e, t1) => (.error e, t1)
        | (.ok top_tracks, t1) =>
          match pyGetD info "genres" (.arr []) with
          | .error e => (.error e, t1)
          | .ok genres =>
            if genres.truthy = false then (.ok (some info, top_tracks), t1)
            else
              match pyIndexNat genres 0 with
              | .error e => (.error e, t1)
              | .ok genre =>
                match get_playlists_by_genre P genre with
                | (.error e, t2) => (.error e, t1 ++ t2)
                | (.ok playlists, t2) =>
                  if playlists.truthy = false then
                    (.ok (some info, top_tracks), t1 ++ t2)
                  else
                    match pyChoice playlists P.randPick with
                    | .error e => (.error e, t1 ++ t2)
                    | .ok random_playlist =>
                      match pySetItem info "playlist" random_playlist with
                      | .error e => (.error e, t1 ++ t2)
                      | .ok info' => (.ok (some info', top_tracks), t1 ++ t2)

/-- City extraction from a raw event (src/app.py lines 316-317):
`venue = event.get("_embedded", {}).get("venues", [{}])[0]` and
`city = venue.get("city", {}).get("name", "Ciudad desconocida")`.
Returns the venue together with the city. -/
def extractCity (event : Json) : Except PyErr (Json × Json) :=
  exBind (pyGetD event "_embedded" (.obj [])) fun emb =>
  exBind (pyGetD emb "venues" (.arr [.obj []])) fun venues =>
  exBind (pyIndexNat venues 0) fun venue =>
  exBind (pyGetD venue "city" (.obj [])) fun cityObj =>
  exBind (pyGetD cityObj "name" (.str "Ciudad desconocida")) fun city =>
  .ok (venue, city)

/-- Coordinate extraction from a geocoding result (src/app.py lines
321-324): `lat, lng = None, None`, then if the result is truthy,
`location = geocode_result[0]['geometry']['location']` and
`lat, lng = location['lat'], location['lng']`. -/
def parseGeo (geocode_result : Json) : Except PyErr (Json × Json) :=
  if geocode_result.truthy = false then .ok (.null, .null)
  else
    exBind (pyIndexNat geocode_result 0) fun g0 =>
    exBind (pyIndexKey g0 "geometry") fun geom =>
    exBind (pyIndexKey geom "location") fun loc =>
    exBind (pyIndexKey loc "lat") fun lat =>
    exBind (pyIndexKey loc "lng") fun lng =>
    .ok (lat, lng)

/-- The expression assigning the `playlist` field of `event_data`
(src/app.py line 337):
`artist_info.get("playlist", {}) if artist_info else {}`.  It depends
only on `artist_info`, which is fixed across the whole event loop. -/
def playlistField (artist_info : Option Json) : Except PyErr Json :=
  match artist_info with
  | some info =>
    if info.truthy then pyGetD info "playlist" (.obj [])
    else .ok (.obj [])
  | none => .ok (.obj [])

/-- The `event_data` dictionary literal (src/app.py lines 330-338),
evaluated after the geocoding and weather lookups. -/
def assembleEvent (event venue city lat lng weather_data : Json)
    (artist_info : Option Json) : Except PyErr Json :=
  exBind (pyGetD event "dates" (.obj [])) fun dates =>
  exBind (pyGetD dates "start" (.obj [])) fun start =>
  exBind (pyGetD start "localDate" (.str "Fecha no disponible")) fun date =>
  exBind (pyGetD venue "name" (.str "Lugar no disponible")) fun venueName =>
  exBind (pyGetD event "url" (.str "#")) fun url =>
  exBind (playlistField artist_info) fun playlist =>
  .ok (.obj [("city", city), ("date", date), ("venue", venueName),
    ("tickets_url", url), ("weather", weather_data),
    ("location", .obj [("lat", lat), ("lng", lng)]),
    ("playlist", playlist)])

/-- One iteration of the event loop (src/app.py lines 315-339): extract
the city, call `gmaps.geocode(city)` — NOT wrapped in try/except, so a
raised exception propagates — extract coordinates, fetch the weather,
and build `event_data`. -/
def processEvent (P : Providers) (artist_info : Option Json) (event : Json) :
    Except PyErr Json × List Call :=
  match extractCity event with
  | .error e => (.error e, [])
  | .ok (venue, city) =>
    match P.geocode city with
    | .error e => (.error e, [.googleGeocode city])
    | .ok geocode_result =>
      match parseGeo geocode_result with
      | .error e => (.error e, [.googleGeocode city])
      | .ok (lat, lng) =>
        match get_weather P city with
        | (.error e, t) => (.error e, .googleGeocode city :: t)
        | (.ok weather_data, t) =>
          match assembleEvent event venue city lat lng weather_data artist_info with
          | .error e => (.error e, .googleGeocode city :: t)
          | .ok event_data => (.ok event_data, .googleGeocode city :: t)

/-- The event loop, sequential and order-preserving, appending each
assembled `event_data` to `events_with_playlists` (src/app.py lines
315-339). -/
def processEvents (P : Providers) (artist_info : Option Json) :
    List Json → Except PyErr (List Json) × List Call
  | [] => (.ok [], [])
  | e :: rest =>
    match processEvent P artist_info e with
    | (.error err, t) => (.error err, t)
    | (.ok ev, t) =>
      match processEvents P artist_info rest with
      | (.error err, t') => (.error err, t ++ t')
      | (.ok evs, t') => (.ok (ev :: evs), t ++ t')

/-- The POST branch of `index` (src/app.py lines 277-347): strip the
input (EmptyInput if falsy), resolve the artist and run the Spotify
enrichment, fetch the events (NoEventsFound if falsy), then process
every event and return Success.  The second component is the list of
network requests performed, in order. -/
def aggregate (P : Providers) (input : String) :
    Except PyErr AggregationResult × List Call :=
  let artist_name := pyStrip input
  if artist_name = "" then (.ok .emptyInput, [])
  else
    match get_artist_info P artist_name with
    | (.error e, t1) => (.error e, t1)
    | (.ok artist_info0, t1) =>
      match spotifyEnrich P artist_info0 with
      | (.error e, t2) => (.error e, t1 ++ t2)
      | (.ok (artist_info, top_tracks), t2) =>
        match get_events P artist_name with
        | (.error e, t3) => (.error e, t1 ++ t2 ++ t3)
        | (.ok events, t3) =>
          if events.truthy = false then
            (.ok (.noEventsFound artist_name artist_info top_tracks), t1 ++ t2 ++ t3)
          else
            match pyIterate events with
            | .error e => (.error e, t1 ++ t2 ++ t3)
            | .ok evList =>
              match processEvents P artist_info evList with
              | (.error e, t4) => (.error e, t1 ++ t2 ++ t3 ++ t4)
              | (.ok assembled, t4) =>
                (.ok (.success artist_name artist_info top_tracks assembled),
                  t1 ++ t2 ++ t3 ++ t4)

/-! Concrete provider behaviours used to evaluate the embedded program
on specific scenarios. -/

/-- A Spotify artist record: match for "Artist X", id `A1`, genres
`["rock", "pop"]`. -/
def artistX : Json :=
  .obj [("id", .str "A1"), ("name", .str "Artist X"),
    ("genres", .arr [.str "rock", .str "pop"])]

/-- A raw Ticketmaster event at CityA with full venue/date/url data. -/
def eventA : Json :=
  .obj [("_embedded", .obj [("venues", .arr [.obj [("name", .str "Stadium A"),
    ("city", .obj [("name", .str "CityA")])]])]),
    ("dates", .obj [("start", .obj [("localDate", .str "2026-01-01")])]),
    ("url", .str "http://tickets/a")]

/-- A raw Ticketmaster event at CityB. -/
def eventB : Json :=
  .obj [("_embedded", .obj [("venues", .arr [.obj [("name", .str "Stadium B"),
    ("city", .obj [("name", .str "CityB")])]])]),
    ("dates", .obj [("start", .obj [("localDate", .str "2026-02-02")])]),
    ("url", .str "http://tickets/b")]

/-- A well-formed OpenWeather body: clear sky, 22.53 degrees. -/
def weatherBodyA : Json :=
  .obj [("weather", .arr [.obj [("description", .str "cielo claro")]]),
    ("main", .obj [("temp", .num (2253 / 100))])]

/-- Behaviour where every provider answers well-formed data: artist
found with genres, two playlists, two events, weather and geocoding
fine.  `randPick = 1` selects the second playlist. -/
def happyP : Providers where
  tokenResp := .ok (.obj [("access_token", .str "tok")])
  artistSearchResp := fun _ => .ok (.obj [("artists",
    .obj [("items", .arr [artistX])])])
  topTracksResp := fun _ => .ok (.obj [("tracks", .arr [.str "track1", .str "track2"])])
  playlistSearchResp := fun _ => .ok (.obj [("playlists",
    .obj [("items", .arr [.str "pl0", .str "pl1"])])])
  eventsResp := fun _ => .ok (.obj [("_embedded", .obj [("events", .arr [eventA, eventB])])])
  weatherResp := fun _ => .ok weatherBodyA
  geocode := fun _ => .ok (.arr [.obj [("geometry",
    .obj [("location", .obj [("lat", .num 1), ("lng", .num 2)])])]])
  randPick := 1

/-- Behaviour where every transport call fails and geocoding returns no
candidate: the maximally degraded but non-raising world. -/
def downP : Providers where
  tokenResp := .error ()
  artistSearchResp := fun _ => .error ()
  topTracksResp := fun _ => .error ()
  playlistSearchResp := fun _ => .error ()
  eventsResp := fun _ => .error ()
  weatherResp := fun _ => .error ()
  geocode := fun _ => .ok (.arr [])
  randPick := 0

/-- Behaviour like `happyP` but the Google Maps client raises a
transport error (network failure / timeout of the geocoding provider). -/
def geoFailP : Providers :=
  { happyP with geocode := fun _ => .error .transportError }

/-- Behaviour like `happyP` but OpenWeather answers `200 OK` with the
JSON body `{}` (well-formed JSON lacking the expected fields). -/
def weatherMalformedP : Providers :=
  { happyP with weatherResp := fun _ => .ok (.obj []) }

/-- A Ticketmaster behaviour answering keyword "A" with the JSON body
`5` and any other keyword with 10 events (one more than the requested
page size). -/
def rogueEventsResp (name : String) : Except Unit Json :=
  if name = "A" then .ok (.num 5)
  else .ok (.obj [("_embedded", .obj [("events",
    .arr (List.replicate 10 (.obj [])))])])

/-- Behaviour like `happyP` but with the rogue Ticketmaster answers. -/
def eventsRogueP : Providers :=
  { happyP with eventsResp := rogueEventsResp }

/-- A Ticketmaster behaviour finding no events. -/
def emptyEventsResp (_name : String) : Except Unit Json :=
  .ok (.obj [("_embedded", .obj [("events", .arr [])])])

/-- Behaviour like `happyP` but Ticketmaster finds no events. -/
def noEventsP : Providers :=
  { happyP with eventsResp := emptyEventsResp }

/-- A geocoding behaviour whose first candidate carries a JSON `null`
latitude next to a numeric longitude. -/
def halfGeoResp (_city : Json) : Except PyErr Json :=
  .ok (.arr [.obj [("geometry",
    .obj [("location", .obj [("lat", .null), ("lng", .num 3)])])]])

/-- Behaviour like `happyP` but with the null-latitude geocoding. -/
def halfGeoP : Providers :=
  { happyP with geocode := halfGeoResp }

/-- A Spotify playlist-search behaviour answering with zero playlist
candidates. -/
def emptyPlaylistResp (_genre : Json) : Except Unit Json :=
  .ok (.obj [("playlists", .obj [("items", .arr [])])])

/-- Behaviour like `happyP` but the playlist search finds no
candidates. -/
def noPlaylistP : Providers :=
  { happyP with playlistSearchResp := emptyPlaylistResp }

/-- The artist record after the orchestrator attached the playlist
chosen by `randPick = 1` from the two `happyP` candidates. -/
def artistXPl : Json :=
  .obj [("id", .str "A1"), ("name", .str "Artist X"),
    ("genres", .arr [.str "rock", .str "pop"]), ("playlist", .str "pl1")]

/-- The weather snapshot produced from `weatherBodyA`: description
capitalized, 22.53 rounded to one decimal (22.5). -/
def weatherSnapA : Json :=
  .obj [("description", .str "Cielo claro"),
    ("temperature", .num (round1 (2253 / 100)))]

/-- The `event_data` assembled for `eventA` under `happyP`. -/
def assembledA : Json :=
  .obj [("city", .str "CityA"), ("date", .str "2026-01-01"),
    ("venue", .str "Stadium A"), ("tickets_url", .str "http://tickets/a"),
    ("weather", weatherSnapA),
    ("location", .obj [("lat", .num 1), ("lng", .num 2)]),
    ("playlist", .str "pl1")]

/-- The `event_data` assembled for `eventB` under `happyP`. -/
def assembledB : Json :=
  .obj [("city", .str "CityB"), ("date", .str "2026-02-02"),
    ("venue", .str "Stadium B"), ("tickets_url", .str "http://tickets/b"),
    ("weather", weatherSnapA),
    ("location", .obj [("lat", .num 1), ("lng", .num 2)]),
    ("playlist", .str "pl1")]

/-- The `event_data` assembled for `eventA` under `downP` (no artist,
weather unavailable, no geocode candidate). -/
def assembledDownA : Json :=
  .obj [("city", .str "CityA"), ("date", .str "2026-01-01"),
    ("venue", .str "Stadium A"), ("tickets_url", .str "http://tickets/a"),
    ("weather", weatherUnavailable),
    ("location", .obj [("lat", .null), ("lng", .null)]),
    ("playlist", .obj [])]

/-! Theorems.  General lemmas about the embedded operations first, then
one theorem per specification claim (with witnesses and counterexamples
where applicable). -/

theorem dropWhile_eq_nil_of_all {p : Char → Bool} {l : List Char}
    (h : ∀ c ∈ l, p c = true) : l.dropWhile p = [] := by
  induction l with
  | nil => rfl
  | cons a t ih =>
    rw [List.dropWhile_cons, if_pos (h a (List.mem_cons_self a t))]
    exact ih fun c hc => h c (List.mem_cons_of_mem a hc)

theorem stripList_eq_nil {l : List Char} (h : ∀ c ∈ l, isPySpace c = true) :
    stripList l = [] := by
  unfold stripList
  rw [dropWhile_eq_nil_of_all h]
  rfl

theorem dropWhile_dropWhile (p : Char → Bool) (l : List Char) :
    (l.dropWhile p).dropWhile p = l.dropWhile p := by
  induction l with
  | nil => rfl
  | cons a t ih =>
    rw [List.dropWhile_cons]
    by_cases h : p a = true
    · rw [if_pos h]; exact ih
    · rw [if_neg h, List.dropWhile_cons, if_neg h]

theorem head_dropWhile_false {p : Char → Bool} {l : List Char} {a : Char}
    {t : List Char} (h : l.dropWhile p = a :: t) : p a = false := by
  induction l with
  | nil => simp [List.dropWhile] at h
  | cons b u ih =>
    rw [List.dropWhile_cons] at h
    by_cases hp : p b = true
    · rw [if_pos hp] at h; exact ih h
    · rw [if_neg hp] at h
      obtain ⟨rfl, rfl⟩ : b = a ∧ u = t := by
        constructor <;> injection h
      exact Bool.not_eq_true _ ▸ eq_false_of_ne_true hp

theorem dropWhile_eq_self_of_head {p : Char → Bool} {l : List Char} {a : Char}
    (hh : l.head? = some a) (ha : p a = false) : l.dropWhile p = l := by
  cases l with
  | nil => simp at hh
  | cons b t =>
    have hb : b = a := by
      rw [List.head?_cons] at hh
      injection hh
    rw [List.dropWhile_cons, if_neg]
    rw [hb, ha]
    simp

theorem getLast?_dropWhile (p : Char → Bool) (l : List Char)
    (h : l.dropWhile p ≠ []) : (l.dropWhile p).getLast? = l.getLast? := by
  induction l with
  | nil => simp [List.dropWhile] at h
  | cons a t ih =>
    rw [List.dropWhile_cons] at h ⊢
    by_cases hp : p a = true
    · rw [if_pos hp] at h ⊢
      have ht : t ≠ [] := by
        intro he
        rw [he] at h
        simp [List.dropWhile] at h
      rw [ih h]
      cases t with
      | nil => exact absurd rfl ht
      | cons b u => rw [List.getLast?_cons_cons]
    · rw [if_neg hp]

theorem stripList_idem (l : List Char) : stripList (stripList l) = stripList l := by
  unfold stripList
  by_cases hsnil : (l.dropWhile isPySpace).reverse.dropWhile isPySpace = []
  · rw [hsnil]
    simp
  · have hr : l.dropWhile isPySpace ≠ [] := by
      intro he
      rw [he] at hsnil
      simp [List.dropWhile] at hsnil
    obtain ⟨a, t, hat⟩ : ∃ a t, l.dropWhile isPySpace = a :: t := by
      cases hc : l.dropWhile isPySpace with
      | nil => exact absurd hc hr
      | cons a t => exact ⟨a, t, rfl⟩
    have hpa : isPySpace a = false := head_dropWhile_false hat
    have hlast :
        ((l.dropWhile isPySpace).reverse.dropWhile isPySpace).getLast? = some a := by
      rw [getLast?_dropWhile _ _ hsnil, List.getLast?_reverse, hat, List.head?_cons]
    have hds :
        ((l.dropWhile isPySpace).reverse.dropWhile isPySpace).reverse.dropWhile
          isPySpace =
        ((l.dropWhile isPySpace).reverse.dropWhile isPySpace).reverse := by
      apply dropWhile_eq_self_of_head (a := a) _ hpa
      rw [List.head?_reverse]
      exact hlast
    rw [hds, List.reverse_reverse, dropWhile_dropWhile]

theorem pyStrip_idem (s : String) : pyStrip (pyStrip s) = pyStrip s := by
  unfold pyStrip
  rw [show (String.mk (stripList s.data)).data = stripList s.data from rfl,
    stripList_idem]

/-- C1: the claim says no provider failure can make the aggregation
raise, but the `gmaps.geocode(city)` call (src/app.py line 320) is the
one provider call not wrapped in any try/except.  With every other
provider healthy, a transport error from the geocoding client escapes
`index`: the run produces an exception, not one of the three result
shapes. -/
theorem C1_geocode_transport_error_aborts :
    aggregate geoFailP "Artist X" =
      (.error .transportError,
        [.spotifyToken, .spotifyArtistSearch "Artist X", .spotifyToken,
         .spotifyTopTracks (.str "A1"), .spotifyToken,
         .spotifyPlaylistSearch (.str "rock"), .ticketmasterEvents "Artist X",
         .googleGeocode (.str "CityA")]) := rfl

/-- C2: for every input that is empty or consists only of whitespace,
the aggregation returns the EmptyInput shape and performs no network
call at all (src/app.py lines 279-283 return before any provider is
consulted). -/
theorem C2_whitespace_empty_input (P : Providers) (s : String)
    (h : ∀ c ∈ s.data, isPySpace c = true) :
    aggregate P s = (.ok .emptyInput, []) := by
  have hs : pyStrip s = "" := by
    unfold pyStrip
    rw [stripList_eq_nil h]
  unfold aggregate
  rw [hs]
  simp

/-- Witness for C2 at the whitespace input made of a space, a tab and a
newline, under fully healthy providers. -/
theorem C2_whitespace_empty_input_witness :
    (∀ c ∈ (" \t\n".data), isPySpace c = true) ∧
      aggregate happyP " \t\n" = (.ok .emptyInput, []) :=
  ⟨by decide, C2_whitespace_empty_input happyP " \t\n" (by decide)⟩

/-- C9: the orchestrator strips the form input once (src/app.py line
279) and uses the stripped name for every downstream query, so an input
and its trimmed form produce identical results under the same provider
behaviour. -/
theorem C9_trim_invariance (P : Providers) (s : String)
    (_h : pyStrip s ≠ "") :
    aggregate P s = aggregate P (pyStrip s) := by
  unfold aggregate
  rw [pyStrip_idem]

/-- Witness for C9 at the padded input "  Artist X  " under healthy
providers. -/
theorem C9_trim_invariance_witness :
    pyStrip "  Artist X  " ≠ "" ∧
      aggregate happyP "  Artist X  " = aggregate happyP (pyStrip "  Artist X  ") :=
  ⟨by decide, C9_trim_invariance happyP "  Artist X  " (by decide)⟩

/-- C3: whenever the event lookup yields the empty list, the
aggregation returns the NoEventsFound shape — whatever the artist
lookup produced — carrying the artist identity and top tracks resolved
before the event lookup (src/app.py lines 306-312). -/
theorem C3_no_events_found (P : Providers) (s : String)
    (h0 : pyStrip s ≠ "") {info0 : Option Json} {t1 : List Call}
    (h1 : get_artist_info P (pyStrip s) = (.ok info0, t1))
    {info : Option Json} {tracks : Json} {t2 : List Call}
    (h2 : spotifyEnrich P info0 = (.ok (info, tracks), t2))
    {t3 : List Call}
    (h3 : get_events P (pyStrip s) = (.ok (.arr []), t3)) :
    aggregate P s =
      (.ok (.noEventsFound (pyStrip s) info tracks), t1 ++ t2 ++ t3) := by
  simp only [aggregate, if_neg h0, h1, h2, h3]
  simp [Json.truthy]

/-- Witness for C3: healthy Spotify providers resolve the artist, its
tracks and a playlist, Ticketmaster finds nothing, and the NoEventsFound
result carries the resolved data. -/
theorem C3_no_events_found_witness :
    pyStrip "Artist X" ≠ "" ∧
      aggregate noEventsP "Artist X" =
        (.ok (.noEventsFound "Artist X" (some artistXPl)
          (.arr [.str "track1", .str "track2"])),
         [.spotifyToken, .spotifyArtistSearch "Artist X", .spotifyToken,
          .spotifyTopTracks (.str "A1"), .spotifyToken,
          .spotifyPlaylistSearch (.str "rock"), .ticketmasterEvents "Artist X"]) :=
  ⟨by decide, C3_no_events_found noEventsP "Artist X" (by decide) rfl rfl rfl⟩

/-- Inversion for the event loop: a successful run produces exactly one
assembled event per raw event, in order, the i-th output coming from
the i-th input. -/
theorem processEvents_ok_spec (P : Providers) (info : Option Json) :
    ∀ (evs asm : List Json) (t : List Call),
      processEvents P info evs = (.ok asm, t) →
      asm.length = evs.length ∧
      ∀ i, i < evs.length →
        ∃ ev tt, processEvent P info (evs.getD i .null) = (.ok ev, tt) ∧
          asm.getD i .null = ev := by
  intro evs
  induction evs with
  | nil =>
    intro asm t h
    unfold processEvents at h
    obtain ⟨h1, h2⟩ := Prod.mk.injEq .. ▸ h
    refine ⟨?_, ?_⟩
    · rw [← Except.ok.inj h1]
    · intro i hi
      exact absurd hi (by simp)
  | cons e rest ih =>
    intro asm t h
    unfold processEvents at h
    cases hpe : processEvent P info e with
    | mk res tt =>
      rw [hpe] at h
      cases res with
      | error err => simp at h
      | ok ev =>
        cases hrest : processEvents P info rest with
        | mk res2 t2 =>
          rw [hrest] at h
          cases res2 with
          | error err => simp at h
          | ok evs2 =>
            have hasm : ev :: evs2 = asm := by
              have := (Prod.mk.injEq .. ▸ h).1
              exact Except.ok.inj this
            obtain ⟨hlen, hidx⟩ := ih evs2 t2 hrest
            subst hasm
            refine ⟨by simp [hlen], ?_⟩
            intro i hi
            cases i with
            | zero => exact ⟨ev, tt, by simpa using hpe, rfl⟩
            | succ n =>
              obtain ⟨ev', tt', hpe', hget⟩ := hidx n (by simpa using hi)
              exact ⟨ev', tt', by simpa using hpe', by simpa using hget⟩

/-- C4: when the event lookup yields N events (0 < N ≤ 9) and every
event processes without raising, the Success result contains exactly N
assembled events, the i-th assembled from the i-th raw record:
the loop (src/app.py lines 315-339) appends sequentially and never
drops, duplicates or reorders. -/
theorem C4_success_preserves_events (P : Providers) (s : String)
    (h0 : pyStrip s ≠ "") {info0 : Option Json} {t1 : List Call}
    (h1 : get_artist_info P (pyStrip s) = (.ok info0, t1))
    {info : Option Json} {tracks : Json} {t2 : List Call}
    (h2 : spotifyEnrich P info0 = (.ok (info, tracks), t2))
    (evs : List Json) (hne : 0 < evs.length) (hcap : evs.length ≤ 9)
    {t3 : List Call}
    (h3 : get_events P (pyStrip s) = (.ok (.arr evs), t3))
    {asm : List Json} {t4 : List Call}
    (h4 : processEvents P info evs = (.ok asm, t4)) :
    aggregate P s =
      (.ok (.success (pyStrip s) info tracks asm), t1 ++ t2 ++ t3 ++ t4) ∧
    asm.length = evs.length ∧
    ∀ i, i < evs.length →
      ∃ ev tt, processEvent P info (evs.getD i .null) = (.ok ev, tt) ∧
        asm.getD i .null = ev := by
  have htr : (Json.arr evs).truthy = true := by
    cases evs with
    | nil => simp at hne
    | cons a l => simp [Json.truthy]
  refine ⟨?_, processEvents_ok_spec P info evs asm t4 h4⟩
  simp only [aggregate, if_neg h0, h1, h2, h3, htr, pyIterate, h4]
  simp

/-- Witness for C4: under fully healthy providers the two Ticketmaster
events come back as two assembled events in the same order. -/
theorem C4_success_preserves_events_witness :
    0 < ([eventA, eventB] : List Json).length ∧
    ([eventA, eventB] : List Json).length ≤ 9 ∧
    aggregate happyP "Artist X" =
      (.ok (.success "Artist X" (some artistXPl)
        (.arr [.str "track1", .str "track2"]) [assembledA, assembledB]),
       [.spotifyToken, .spotifyArtistSearch "Artist X", .spotifyToken,
        .spotifyTopTracks (.str "A1"), .spotifyToken,
        .spotifyPlaylistSearch (.str "rock"), .ticketmasterEvents "Artist X",
        .googleGeocode (.str "CityA"), .openWeather (.str "CityA"),
        .googleGeocode (.str "CityB"), .openWeather (.str "CityB")]) :=
  ⟨by decide, by decide,
    (C4_success_preserves_events happyP "Artist X" (by decide) rfl rfl
      [eventA, eventB] (by decide) (by decide) rfl rfl).1⟩

/-- Counterexample to C5 as stated: when OpenWeather answers `200 OK`
with the well-formed JSON body `{}` (a malformed response for the
weather API), `clima_data["weather"]` (src/app.py line 131) raises
`KeyError`, which the `except requests.exceptions.RequestException`
clause does not catch: `get_weather` raises instead of returning the
"data unavailable" snapshot. -/
theorem C5_counterexample :
    get_weather weatherMalformedP (.str "London") =
      (.error .keyError, [.openWeather (.str "London")]) := rfl

/-- Counterexample to C6 as stated: (i) when Ticketmaster answers
keyword "A" with the JSON body `5`, `response.json().get(...)`
(src/app.py line 91) raises `AttributeError` instead of returning the
empty sequence; (ii) when it answers keyword "B" with 10 events, all 10
are returned — the ≤ 9 cap is only requested via the `size` query
parameter, never enforced on the response. -/
theorem C6_counterexample :
    get_events eventsRogueP "A" =
      (.error .attributeError, [.ticketmasterEvents "A"]) ∧
    get_events eventsRogueP "B" =
      (.ok (.arr (List.replicate 10 (.obj []))), [.ticketmasterEvents "B"]) ∧
    (List.replicate 10 (Json.obj [])).length = 10 :=
  ⟨rfl, rfl, rfl⟩

/-- C5 (amended): `get_weather` is a two-outcome state machine for
transport-level failures — (a) an empty or sentinel city immediately
yields the fixed "city not specified" snapshot with no network call;
(b) a transport/timeout/HTTP-error/JSON-decode failure of the single
request yields the fixed "data unavailable" snapshot; (c) a response
carrying the expected fields yields the capitalized first
weather-condition description and the temperature rounded to one
decimal.  (A response that decodes to JSON without the expected fields
raises instead — see the counterexample.)  Every returned snapshot
carries both fields. -/
theorem C5_weather_two_outcomes_amended :
    (∀ (P : Providers) (city : Json),
        city.truthy = false ∨ city.eqStr "Ciudad desconocida" = true →
        get_weather P city = (.ok weatherNotSpecified, [])) ∧
    (∀ (P : Providers) (city : Json),
        city.truthy = true → city.eqStr "Ciudad desconocida" = false →
        P.weatherResp city = .error () →
        get_weather P city = (.ok weatherUnavailable, [.openWeather city])) ∧
    (∀ (P : Providers) (city clima w0 m : Json) (ws : List Json)
        (d : String) (t : ℚ),
        city.truthy = true → city.eqStr "Ciudad desconocida" = false →
        P.weatherResp city = .ok clima →
        pyIndexKey clima "weather" = .ok (.arr (w0 :: ws)) →
        pyIndexKey w0 "description" = .ok (.str d) →
        pyIndexKey clima "main" = .ok m →
        pyIndexKey m "temp" = .ok (.num t) →
        get_weather P city =
          (.ok (.obj [("description", .str (strCapitalize d)),
            ("temperature", .num (round1 t))]), [.openWeather city])) := by
  refine ⟨?_, ?_, ?_⟩
  · intro P city h
    unfold get_weather
    rw [if_pos]
    rcases h with h | h <;> simp [h]
  · intro P city h1 h2 hresp
    unfold get_weather
    rw [if_neg (by simp [h1, h2]), hresp]
  · intro P city clima w0 m ws d t h1 h2 hresp hw hd hm ht
    unfold get_weather
    rw [if_neg (by simp [h1, h2]), hresp]
    simp only [parseWeather, hw, hd, hm, ht, exBind, pyIndexNat, pyCapitalize,
      pyRound1, List.getElem?_cons_zero]

/-- Witness for C5 (amended), instantiating the three outcomes: the
empty city, a transport failure for CityA, and the well-formed CityA
response of `happyP`. -/
theorem C5_weather_two_outcomes_amended_witness :
    get_weather happyP (.str "") = (.ok weatherNotSpecified, []) ∧
    get_weather downP (.str "CityA") =
      (.ok weatherUnavailable, [.openWeather (.str "CityA")]) ∧
    get_weather happyP (.str "CityA") =
      (.ok (.obj [("description", .str (strCapitalize "cielo claro")),
        ("temperature", .num (round1 (2253 / 100)))]),
       [.openWeather (.str "CityA")]) :=
  ⟨C5_weather_two_outcomes_amended.1 happyP (.str "") (by simp [Json.truthy]),
   C5_weather_two_outcomes_amended.2.1 downP (.str "CityA") (by decide) (by decide) rfl,
   C5_weather_two_outcomes_amended.2.2 happyP (.str "CityA") weatherBodyA
     (.obj [("description", .str "cielo claro")]) (.obj [("temp", .num (2253 / 100))])
     [] "cielo claro" (2253 / 100) (by decide) (by decide) rfl rfl rfl rfl rfl⟩

/-- C6 (amended): `get_events` sends the query parameters `size = 9`,
`classificationName = "Music"` and `sort = "date,asc"`, but never
validates the response against them: (a) any transport-level failure
yields the empty list; (b) a well-formed body's events value is
returned exactly as the provider sent it — unfiltered, uncapped and
unreordered — so the ≤ 9 cap, the date order and the music-only filter
hold only if the provider honours the query (and a non-object body
raises, see the counterexample). -/
theorem C6_events_passthrough_amended :
    (∀ (P : Providers) (name : String),
        P.eventsResp name = .error () →
        get_events P name = (.ok (.arr []), [.ticketmasterEvents name])) ∧
    (∀ (P : Providers) (name : String) (v : Json),
        P.eventsResp name = .ok (.obj [("_embedded", .obj [("events", v)])]) →
        get_events P name = (.ok v, [.ticketmasterEvents name])) := by
  constructor
  · intro P name h
    unfold get_events
    rw [h]
  · intro P name v h
    unfold get_events
    rw [h]
    rfl

/-- Witness for C6 (amended): a Ticketmaster transport failure yields
the empty list, and the two-event body of `happyP` is passed through
unchanged. -/
theorem C6_events_passthrough_amended_witness :
    get_events downP "Artist X" = (.ok (.arr []), [.ticketmasterEvents "Artist X"]) ∧
    get_events happyP "Artist X" =
      (.ok (.arr [eventA, eventB]), [.ticketmasterEvents "Artist X"]) :=
  ⟨C6_events_passthrough_amended.1 downP "Artist X" rfl,
   C6_events_passthrough_amended.2 happyP "Artist X" (.arr [eventA, eventB]) rfl⟩

/-- Inversion of `exBind`: a successful sequence means the first step
succeeded and the continuation succeeded on its value. -/
theorem exBind_ok {α β : Type} {x : Except PyErr α} {f : α → Except PyErr β}
    {b : β} (h : exBind x f = .ok b) : ∃ v, x = .ok v ∧ f v = .ok b := by
  cases x with
  | error e => simp [exBind] at h
  | ok v => exact ⟨v, rfl, h⟩

/-- The `location` field of every successfully assembled `event_data`
is exactly the pair of values the geocoding step produced. -/
theorem assembleEvent_location {event venue city lat lng w : Json}
    {info : Option Json} {a : Json}
    (h : assembleEvent event venue city lat lng w info = .ok a) :
    pyIndexKey a "location" = .ok (.obj [("lat", lat), ("lng", lng)]) := by
  unfold assembleEvent at h
  obtain ⟨dates, h1, h⟩ := exBind_ok h
  obtain ⟨start, h2, h⟩ := exBind_ok h
  obtain ⟨date, h3, h⟩ := exBind_ok h
  obtain ⟨venueName, h4, h⟩ := exBind_ok h
  obtain ⟨url, h5, h⟩ := exBind_ok h
  obtain ⟨playlist, h6, h⟩ := exBind_ok h
  have ha := Except.ok.inj h
  subst ha
  simp [pyIndexKey, lookupField]

/-- A successful loop iteration carries the geocoded pair into the
assembled event's `location` field. -/
theorem processEvent_location {P : Providers} {info : Option Json}
    {ev venue city gr : Json} {lat lng : Json}
    (hc : extractCity ev = .ok (venue, city))
    (hg : P.geocode city = .ok gr)
    (hpg : parseGeo gr = .ok (lat, lng)) :
    ∀ {a : Json} {t : List Call}, processEvent P info ev = (.ok a, t) →
      pyIndexKey a "location" = .ok (.obj [("lat", lat), ("lng", lng)]) := by
  intro a t h
  unfold processEvent at h
  simp only [hc] at h
  simp only [hg] at h
  simp only [hpg] at h
  cases hw : get_weather P city with
  | mk wres wt =>
    rw [hw] at h
    cases wres with
    | error e => simp at h
    | ok w =>
      simp only [] at h
      cases ha : assembleEvent ev venue city lat lng w info with
      | error e => simp [ha] at h
      | ok a0 =>
        simp only [ha] at h
        have haa : a0 = a := by
          have := (Prod.mk.injEq .. ▸ h).1
          exact Except.ok.inj this
        subst haa
        exact assembleEvent_location ha

/-- Geocoding with no candidate leaves both coordinates as `None`. -/
theorem parseGeo_nil : parseGeo (.arr []) = .ok (.null, .null) := rfl

/-- Geocoding with at least one candidate takes the first candidate's
`geometry.location.lat` and `.lng`. -/
theorem parseGeo_cons {c0 : Json} {rest : List Json} {geom loc la ln : Json}
    (hgeom : pyIndexKey c0 "geometry" = .ok geom)
    (hloc : pyIndexKey geom "location" = .ok loc)
    (hla : pyIndexKey loc "lat" = .ok la)
    (hln : pyIndexKey loc "lng" = .ok ln) :
    parseGeo (.arr (c0 :: rest)) = .ok (la, ln) := by
  unfold parseGeo
  rw [if_neg (by simp [Json.truthy])]
  simp only [pyIndexNat, List.getElem?_cons_zero, exBind, hgeom, hloc, hla, hln]

/-- C7: when geocoding yields no candidate the assembled event carries
`lat = lng = None` (distinguishable from the coordinate (0,0)); when at
least one candidate exists both components are copied from the first
candidate's latitude and longitude (src/app.py lines 320-324). -/
theorem C7_geocode_coordinates (P : Providers) (info : Option Json)
    (ev venue city : Json) (hc : extractCity ev = .ok (venue, city)) :
    (P.geocode city = .ok (.arr []) →
      ∀ a t, processEvent P info ev = (.ok a, t) →
        pyIndexKey a "location" = .ok (.obj [("lat", .null), ("lng", .null)])) ∧
    (∀ c0 rest geom loc la ln,
      P.geocode city = .ok (.arr (c0 :: rest)) →
      pyIndexKey c0 "geometry" = .ok geom →
      pyIndexKey geom "location" = .ok loc →
      pyIndexKey loc "lat" = .ok la →
      pyIndexKey loc "lng" = .ok ln →
      ∀ a t, processEvent P info ev = (.ok a, t) →
        pyIndexKey a "location" = .ok (.obj [("lat", la), ("lng", ln)])) ∧
    Json.obj [("lat", Json.null), ("lng", Json.null)] ≠
      Json.obj [("lat", Json.num 0), ("lng", Json.num 0)] := by
  refine ⟨?_, ?_, by simp⟩
  · intro hg a t h
    exact processEvent_location hc hg parseGeo_nil h
  · intro c0 rest geom loc la ln hg hgeom hloc hla hln a t h
    exact processEvent_location hc hg (parseGeo_cons hgeom hloc hla hln) h

/-- Witness for C7: under `downP` geocoding finds nothing and the
assembled event carries a null pair; under `happyP` it copies the first
candidate's (1, 2). -/
theorem C7_geocode_coordinates_witness :
    pyIndexKey assembledDownA "location" =
      .ok (.obj [("lat", .null), ("lng", .null)]) ∧
    pyIndexKey assembledA "location" =
      .ok (.obj [("lat", .num 1), ("lng", .num 2)]) :=
  ⟨(C7_geocode_coordinates downP none eventA _ (.str "CityA") rfl).1 rfl
      assembledDownA _ rfl,
   (C7_geocode_coordinates happyP (some artistXPl) eventA _ (.str "CityA") rfl).2.1
      _ [] _ _ _ _ rfl rfl rfl rfl rfl assembledA _ rfl⟩

/-- C10 (amended): both coordinate fields of an assembled event are
copied together — from the first geocode candidate's location when a
candidate exists, or both left `None` when none does — so latitude is
absent iff longitude is absent whenever the first candidate's
components are themselves non-null (a candidate carrying a null
component is copied verbatim; see the counterexample). -/
theorem C10_coordinate_pairing_amended (P : Providers) (info : Option Json)
    (ev venue city : Json) (hc : extractCity ev = .ok (venue, city)) :
    (P.geocode city = .ok (.arr []) →
      ∀ a t, processEvent P info ev = (.ok a, t) →
        ∃ lat lng,
          pyIndexKey a "location" = .ok (.obj [("lat", lat), ("lng", lng)]) ∧
          (lat = .null ↔ lng = .null)) ∧
    (∀ c0 rest geom loc la ln,
      P.geocode city = .ok (.arr (c0 :: rest)) →
      pyIndexKey c0 "geometry" = .ok geom →
      pyIndexKey geom "location" = .ok loc →
      pyIndexKey loc "lat" = .ok la →
      pyIndexKey loc "lng" = .ok ln →
      la ≠ .null → ln ≠ .null →
      ∀ a t, processEvent P info ev = (.ok a, t) →
        pyIndexKey a "location" = .ok (.obj [("lat", la), ("lng", ln)]) ∧
        (la = .null ↔ ln = .null)) := by
  constructor
  · intro hg a t h
    exact ⟨.null, .null, processEvent_location hc hg parseGeo_nil h, Iff.rfl⟩
  · intro c0 rest geom loc la ln hg hgeom hloc hla hln hlan hlnn a t h
    exact ⟨processEvent_location hc hg (parseGeo_cons hgeom hloc hla hln) h,
      iff_of_false hlan hlnn⟩

/-- Witness for C10 (amended) at the no-candidate case of `downP` and
the non-null candidate (1, 2) of `happyP`. -/
theorem C10_coordinate_pairing_amended_witness :
    (∃ lat lng,
      pyIndexKey assembledDownA "location" =
        .ok (.obj [("lat", lat), ("lng", lng)]) ∧ (lat = .null ↔ lng = .null)) ∧
    (pyIndexKey assembledA "location" =
        .ok (.obj [("lat", .num 1), ("lng", .num 2)]) ∧
      ((.num 1 : Json) = .null ↔ (.num 2 : Json) = .null)) :=
  ⟨(C10_coordinate_pairing_amended downP none eventA _ (.str "CityA") rfl).1 rfl
      assembledDownA _ rfl,
   (C10_coordinate_pairing_amended happyP (some artistXPl) eventA _
      (.str "CityA") rfl).2 _ [] _ _ _ _ rfl rfl rfl rfl rfl
      (by simp) (by simp) assembledA _ rfl⟩

/-- The artist lookup records a token request and possibly one artist
search request. -/
theorem get_artist_info_trace_cases (P : Providers) (q : String) :
    (get_artist_info P q).2 = [.spotifyToken] ∨
    (get_artist_info P q).2 = [.spotifyToken, .spotifyArtistSearch q] := by
  cases htok : P.tokenResp with
  | error e => simp [get_artist_info, htok]
  | ok tok =>
    cases hx : pyGetD tok "access_token" Json.null with
    | error e => simp [get_artist_info, htok, hx]
    | ok x =>
      cases hs : P.artistSearchResp q with
      | error e => simp [get_artist_info, htok, hx, hs]
      | ok body => simp [get_artist_info, htok, hx, hs]

/-- The top-tracks lookup records a token request and possibly one
top-tracks request. -/
theorem get_top_tracks_trace_cases (P : Providers) (aid : Json) :
    (get_top_tracks P aid).2 = [.spotifyToken] ∨
    (get_top_tracks P aid).2 = [.spotifyToken, .spotifyTopTracks aid] := by
  cases htok : P.tokenResp with
  | error e => simp [get_top_tracks, htok]
  | ok tok =>
    cases hx : pyGetD tok "access_token" Json.null with
    | error e => simp [get_top_tracks, htok, hx]
    | ok x =>
      cases hs : P.topTracksResp aid with
      | error e => simp [get_top_tracks, htok, hx, hs]
      | ok body => simp [get_top_tracks, htok, hx, hs]

/-- The playlist lookup records a token request and possibly one
playlist-search request for exactly its genre argument. -/
theorem get_playlists_trace_cases (P : Providers) (g : Json) :
    (get_playlists_by_genre P g).2 = [.spotifyToken] ∨
    (get_playlists_by_genre P g).2 = [.spotifyToken, .spotifyPlaylistSearch g] := by
  cases htok : P.tokenResp with
  | error e => simp [get_playlists_by_genre, htok]
  | ok tok =>
    cases hx : pyGetD tok "access_token" Json.null with
    | error e => simp [get_playlists_by_genre, htok, hx]
    | ok x =>
      cases hs : P.playlistSearchResp g with
      | error e => simp [get_playlists_by_genre, htok, hx, hs]
      | ok body => simp [get_playlists_by_genre, htok, hx, hs]

/-- The event lookup always records exactly one Ticketmaster request. -/
theorem get_events_trace (P : Providers) (name : String) :
    (get_events P name).2 = [.ticketmasterEvents name] := by
  cases hs : P.eventsResp name with
  | error e => simp [get_events, hs]
  | ok body => simp [get_events, hs]

/-- The weather lookup records no request (sentinel/empty city) or
exactly one OpenWeather request. -/
theorem get_weather_trace_cases (P : Providers) (city : Json) :
    (get_weather P city).2 = [] ∨ (get_weather P city).2 = [.openWeather city] := by
  unfold get_weather
  cases hb : (!city.truthy || city.eqStr "Ciudad desconocida") with
  | true => simp
  | false =>
    cases P.weatherResp city with
    | error e => simp
    | ok clima => simp

/-- No artist-lookup request is a playlist search. -/
theorem no_playlist_artist {P : Providers} {q : String} {c : Call}
    (hc : c ∈ (get_artist_info P q).2) : isPlaylistCall c = false := by
  rcases get_artist_info_trace_cases P q with h | h <;> rw [h] at hc
  · simp at hc; subst hc; rfl
  · simp at hc; rcases hc with rfl | rfl <;> rfl

/-- No top-tracks request is a playlist search. -/
theorem no_playlist_top_tracks {P : Providers} {aid : Json} {c : Call}
    (hc : c ∈ (get_top_tracks P aid).2) : isPlaylistCall c = false := by
  rcases get_top_tracks_trace_cases P aid with h | h <;> rw [h] at hc
  · simp at hc; subst hc; rfl
  · simp at hc; rcases hc with rfl | rfl <;> rfl

/-- A playlist search recorded by the playlist lookup is for exactly
the genre the lookup was called with. -/
theorem playlist_call_genre {P : Providers} {g : Json} {c : Call}
    (hc : c ∈ (get_playlists_by_genre P g).2) (hpl : isPlaylistCall c = true) :
    c = .spotifyPlaylistSearch g := by
  rcases get_playlists_trace_cases P g with h | h <;> rw [h] at hc
  · simp at hc; subst hc; simp [isPlaylistCall] at hpl
  · simp at hc
    rcases hc with rfl | rfl
    · simp [isPlaylistCall] at hpl
    · rfl

/-- No event-lookup request is a playlist search. -/
theorem no_playlist_events {P : Providers} {name : String} {c : Call}
    (hc : c ∈ (get_events P name).2) : isPlaylistCall c = false := by
  rw [get_events_trace] at hc
  simp at hc; subst hc; rfl

/-- No weather request is a playlist search. -/
theorem no_playlist_weather {P : Providers} {city : Json} {c : Call}
    (hc : c ∈ (get_weather P city).2) : isPlaylistCall c = false := by
  rcases get_weather_trace_cases P city with h | h <;> rw [h] at hc
  · simp at hc
  · simp at hc; subst hc; rfl

/-- No request of one loop iteration is a playlist search (the loop
performs only geocoding and weather requests). -/
theorem no_playlist_process_event {P : Providers} {info : Option Json}
    {ev : Json} {c : Call} (hc : c ∈ (processEvent P info ev).2) :
    isPlaylistCall c = false := by
  unfold processEvent at hc
  cases hec : extractCity ev with
  | error e => simp only [hec] at hc; simp at hc
  | ok vc =>
    obtain ⟨venue, city⟩ := vc
    simp only [hec] at hc
    cases hg : P.geocode city with
    | error e => simp only [hg] at hc; simp at hc; subst hc; rfl
    | ok gr =>
      simp only [hg] at hc
      cases hpg : parseGeo gr with
      | error e => simp only [hpg] at hc; simp at hc; subst hc; rfl
      | ok ll =>
        obtain ⟨lat, lng⟩ := ll
        simp only [hpg] at hc
        cases hgw : get_weather P city with
        | mk wres wt =>
          rw [hgw] at hc
          have htail : c ∈ Call.googleGeocode city :: wt →
              isPlaylistCall c = false := by
            intro hmem
            rcases List.mem_cons.mp hmem with rfl | hmem
            · rfl
            · exact @no_playlist_weather P city c (by rw [hgw]; exact hmem)
          cases wres with
          | error e => exact htail (by simpa using hc)
          | ok w =>
            simp only [] at hc
            cases ha : assembleEvent ev venue city lat lng w info with
            | error e => simp only [ha] at hc; exact htail (by simpa using hc)
            | ok a0 => simp only [ha] at hc; exact htail (by simpa using hc)

/-- No request of the whole event loop is a playlist search. -/
theorem no_playlist_process_events {P : Providers} {info : Option Json} :
    ∀ {evs : List Json} {c : Call}, c ∈ (processEvents P info evs).2 →
      isPlaylistCall c = false := by
  intro evs
  induction evs with
  | nil => intro c hc; simp [processEvents] at hc
  | cons e rest ih =>
    intro c hc
    unfold processEvents at hc
    cases hpe : processEvent P info e with
    | mk res tt =>
      rw [hpe] at hc
      cases res with
      | error err =>
        simp only [] at hc
        exact no_playlist_process_event (by rw [hpe]; exact hc)
      | ok ev =>
        cases hrest : processEvents P info rest with
        | mk res2 t2 =>
          rw [hrest] at hc
          have hsplit : c ∈ tt ++ t2 → isPlaylistCall c = false := by
            intro hm
            rcases List.mem_append.mp hm with hm | hm
            · exact @no_playlist_process_event P info e c
                (by rw [hpe]; exact hm)
            · exact ih (by rw [hrest]; exact hm)
          cases res2 with
          | error err => exact hsplit (by simpa using hc)
          | ok evs2 => exact hsplit (by simpa using hc)

/-- A nonempty JSON array is truthy. -/
theorem arr_truthy_of_ne_nil {l : List Json} (h : l ≠ []) :
    (Json.arr l).truthy = true := by
  cases l with
  | nil => exact absurd rfl h
  | cons a t => simp [Json.truthy]

/-- Setting a key makes it look up to the assigned value. -/
theorem lookupField_setField (fs : List (String × Json)) (k : String) (v : Json) :
    lookupField (setField fs k v) k = some v := by
  induction fs with
  | nil => simp [setField, lookupField]
  | cons hd tl ih =>
    obtain ⟨k', v'⟩ := hd
    by_cases hk : k' = k
    · simp [setField, hk, lookupField]
    · simp [setField, hk, lookupField, ih]

/-- A value can only be looked up from a JSON object. -/
theorem pyIndexKey_ok_obj {j v : Json} {k : String}
    (h : pyIndexKey j k = .ok v) : ∃ fs, j = .obj fs := by
  cases j with
  | obj fs => exact ⟨fs, rfl⟩
  | null => simp [pyIndexKey] at h
  | bool b => simp [pyIndexKey] at h
  | num q => simp [pyIndexKey] at h
  | str s => simp [pyIndexKey] at h
  | arr l => simp [pyIndexKey] at h

/-- If the Spotify enrichment recorded a playlist search for `g`, the
artist was found and truthy, its `genres` value was truthy, and `g` is
exactly `genres[0]` — the first listed genre, with no fallback. -/
theorem spotifyEnrich_playlist_call {P : Providers} {info0 : Option Json}
    {res : Except PyErr (Option Json × Json)} {t : List Call}
    (h : spotifyEnrich P info0 = (res, t)) {g : Json}
    (hg : Call.spotifyPlaylistSearch g ∈ t) :
    ∃ info, info0 = some info ∧ info.truthy = true ∧
      ∃ genres, pyGetD info "genres" (.arr []) = .ok genres ∧
        genres.truthy = true ∧ pyIndexNat genres 0 = .ok g := by
  cases info0 with
  | none =>
    unfold spotifyEnrich at h
    obtain ⟨h1, h2⟩ := Prod.mk.injEq .. ▸ h
    subst h2
    simp at hg
  | some info =>
    simp only [spotifyEnrich] at h
    by_cases htr : info.truthy = false
    · rw [if_pos htr] at h
      obtain ⟨h1, h2⟩ := Prod.mk.injEq .. ▸ h
      subst h2
      simp at hg
    · rw [if_neg htr] at h
      have htr' : info.truthy = true := by
        cases hb : info.truthy
        · exact absurd hb htr
        · rfl
      cases hid : pyIndexKey info "id" with
      | error e =>
        simp only [hid] at h
        obtain ⟨h1, h2⟩ := Prod.mk.injEq .. ▸ h
        subst h2
        simp at hg
      | ok aid =>
        simp only [hid] at h
        cases htt : get_top_tracks P aid with
        | mk tres t1 =>
          rw [htt] at h
          have ht1 : Call.spotifyPlaylistSearch g ∈ t1 → False := fun hm =>
            absurd (@no_playlist_top_tracks P aid (.spotifyPlaylistSearch g)
              (by rw [htt]; exact hm)) (by simp [isPlaylistCall])
          cases tres with
          | error e =>
            simp at h
            obtain ⟨h1, h2⟩ := h
            subst h2
            exact absurd hg ht1
          | ok tracks =>
            simp only [] at h
            cases hgen : pyGetD info "genres" (.arr []) with
            | error e =>
              simp only [hgen] at h
              obtain ⟨h1, h2⟩ := Prod.mk.injEq .. ▸ h
              subst h2
              exact absurd hg ht1
            | ok genres =>
              simp only [hgen] at h
              by_cases hgtr : genres.truthy = false
              · rw [if_pos hgtr] at h
                obtain ⟨h1, h2⟩ := Prod.mk.injEq .. ▸ h
                subst h2
                exact absurd hg ht1
              · rw [if_neg hgtr] at h
                have hgtr' : genres.truthy = true := by
                  cases hb : genres.truthy
                  · exact absurd hb hgtr
                  · rfl
                cases hidx : pyIndexNat genres 0 with
                | error e =>
                  simp only [hidx] at h
                  obtain ⟨h1, h2⟩ := Prod.mk.injEq .. ▸ h
                  subst h2
                  exact absurd hg ht1
                | ok g0 =>
                  simp only [hidx] at h
                  cases hpl : get_playlists_by_genre P g0 with
                  | mk plres t2 =>
                    rw [hpl] at h
                    have hfin : Call.spotifyPlaylistSearch g ∈ t1 ++ t2 →
                        ∃ info1, some info = some info1 ∧ info1.truthy = true ∧
                          ∃ genres1, pyGetD info1 "genres" (.arr []) = .ok genres1 ∧
                            genres1.truthy = true ∧ pyIndexNat genres1 0 = .ok g := by
                      intro hm
                      rcases List.mem_append.mp hm with hm | hm
                      · exact absurd hm ht1
                      · have hcg := playlist_call_genre (P := P) (g := g0)
                          (c := .spotifyPlaylistSearch g)
                          (by rw [hpl]; exact hm) rfl
                        have hgg : g = g0 := by injection hcg
                        subst hgg
                        exact ⟨info, rfl, htr', genres, hgen, hgtr', hidx⟩
                    cases plres with
                    | error e =>
                      simp at h
                      obtain ⟨h1, h2⟩ := h
                      subst h2
                      exact hfin hg
                    | ok playlists =>
                      simp only [] at h
                      by_cases hptr : playlists.truthy = false
                      · rw [if_pos hptr] at h
                        obtain ⟨h1, h2⟩ := Prod.mk.injEq .. ▸ h
                        subst h2
                        exact hfin hg
                      · rw [if_neg hptr] at h
                        cases hch : pyChoice playlists P.randPick with
                        | error e =>
                          simp only [hch] at h
                          obtain ⟨h1, h2⟩ := Prod.mk.injEq .. ▸ h
                          subst h2
                          exact hfin hg
                        | ok pl =>
                          simp only [hch] at h
                          cases hsi : pySetItem info "playlist" pl with
                          | error e =>
                            simp only [hsi] at h
                            obtain ⟨h1, h2⟩ := Prod.mk.injEq .. ▸ h
                            subst h2
                            exact hfin hg
                          | ok info1 =>
                            simp only [hsi] at h
                            obtain ⟨h1, h2⟩ := Prod.mk.injEq .. ▸ h
                            subst h2
                            exact hfin hg

/-- If a whole aggregation run recorded a playlist search for `g`, the
artist lookup returned a truthy identity whose `genres` value is truthy
and whose first entry is `g` — a playlist lookup happens only then, and
only for the first genre. -/
theorem aggregate_playlist_call {P : Providers} {s : String}
    {res : Except PyErr AggregationResult} {t : List Call}
    (h : aggregate P s = (res, t)) {g : Json}
    (hg : Call.spotifyPlaylistSearch g ∈ t) :
    ∃ info t1, get_artist_info P (pyStrip s) = (.ok (some info), t1) ∧
      info.truthy = true ∧
      ∃ genres, pyGetD info "genres" (.arr []) = .ok genres ∧
        genres.truthy = true ∧ pyIndexNat genres 0 = .ok g := by
  unfold aggregate at h
  by_cases hss : pyStrip s = ""
  · rw [if_pos hss] at h
    obtain ⟨h1, h2⟩ := Prod.mk.injEq .. ▸ h
    subst h2
    simp at hg
  · rw [if_neg hss] at h
    cases hai : get_artist_info P (pyStrip s) with
    | mk ares t1 =>
      have ht1 : Call.spotifyPlaylistSearch g ∈ t1 → False := fun hm =>
        absurd (@no_playlist_artist P (pyStrip s) (.spotifyPlaylistSearch g)
          (by rw [hai]; exact hm)) (by simp [isPlaylistCall])
      cases ares with
      | error e =>
        simp only [hai] at h
        obtain ⟨h1, h2⟩ := Prod.mk.injEq .. ▸ h
        subst h2
        exact absurd hg ht1
      | ok info0 =>
        simp only [hai] at h
        cases hse : spotifyEnrich P info0 with
        | mk sres t2 =>
          have ht2 : Call.spotifyPlaylistSearch g ∈ t2 →
              ∃ info t1', get_artist_info P (pyStrip s) = (.ok (some info), t1') ∧
                info.truthy = true ∧
                ∃ genres, pyGetD info "genres" (.arr []) = .ok genres ∧
                  genres.truthy = true ∧ pyIndexNat genres 0 = .ok g := by
            intro hm
            obtain ⟨info, hinfo0, htr, genres, hgen, hgtr, hidx⟩ :=
              spotifyEnrich_playlist_call hse hm
            exact ⟨info, t1, by rw [← hinfo0]; exact hai, htr, genres, hgen,
              hgtr, hidx⟩
          cases sres with
          | error e =>
            simp only [hse] at h
            obtain ⟨h1, h2⟩ := Prod.mk.injEq .. ▸ h
            subst h2
            rw [← hai]
            rcases List.mem_append.mp hg with hm | hm
            · exact absurd hm ht1
            · exact ht2 hm
          | ok pr =>
            obtain ⟨info1, tracks⟩ := pr
            simp only [hse] at h
            cases hev : get_events P (pyStrip s) with
            | mk eres t3 =>
              have ht3 : Call.spotifyPlaylistSearch g ∈ t3 → False := fun hm =>
                absurd (@no_playlist_events P (pyStrip s)
                  (.spotifyPlaylistSearch g)
                  (by rw [hev]; exact hm)) (by simp [isPlaylistCall])
              have hsplit3 : Call.spotifyPlaylistSearch g ∈ t1 ++ t2 ++ t3 →
                  ∃ info t1', get_artist_info P (pyStrip s) = (.ok (some info), t1') ∧
                    info.truthy = true ∧
                    ∃ genres, pyGetD info "genres" (.arr []) = .ok genres ∧
                      genres.truthy = true ∧ pyIndexNat genres 0 = .ok g := by
                intro hm
                rcases List.mem_append.mp hm with hm | hm
                · rcases List.mem_append.mp hm with hm | hm
                  · exact absurd hm ht1
                  · exact ht2 hm
                · exact absurd hm ht3
              cases eres with
              | error e =>
                simp only [hev] at h
                obtain ⟨h1, h2⟩ := Prod.mk.injEq .. ▸ h
                subst h2
                rw [← hai]
                exact hsplit3 hg
              | ok events =>
                simp only [hev] at h
                by_cases het : events.truthy = false
                · rw [if_pos het] at h
                  obtain ⟨h1, h2⟩ := Prod.mk.injEq .. ▸ h
                  subst h2
                  rw [← hai]
                  exact hsplit3 hg
                · rw [if_neg het] at h
                  cases hit : pyIterate events with
                  | error e =>
                    simp only [hit] at h
                    obtain ⟨h1, h2⟩ := Prod.mk.injEq .. ▸ h
                    subst h2
                    rw [← hai]
                    exact hsplit3 hg
                  | ok evList =>
                    simp only [hit] at h
                    cases hpes : processEvents P info1 evList with
                    | mk pres t4 =>
                      have ht4 : Call.spotifyPlaylistSearch g ∈ t4 → False :=
                        fun hm =>
                          absurd (@no_playlist_process_events P info1 evList
                            (.spotifyPlaylistSearch g)
                            (by rw [hpes]; exact hm)) (by simp [isPlaylistCall])
                      have hsplit4 :
                          Call.spotifyPlaylistSearch g ∈ t1 ++ t2 ++ t3 ++ t4 →
                          ∃ info t1',
                            get_artist_info P (pyStrip s) = (.ok (some info), t1') ∧
                            info.truthy = true ∧
                            ∃ genres, pyGetD info "genres" (.arr []) = .ok genres ∧
                              genres.truthy = true ∧ pyIndexNat genres 0 = .ok g := by
                        intro hm
                        rcases List.mem_append.mp hm with hm | hm
                        · exact hsplit3 hm
                        · exact absurd hm ht4
                      cases pres with
                      | error e =>
                        simp only [hpes] at h
                        obtain ⟨h1, h2⟩ := Prod.mk.injEq .. ▸ h
                        subst h2
                        rw [← hai]
                        exact hsplit4 hg
                      | ok assembled =>
                        simp only [hpes] at h
                        obtain ⟨h1, h2⟩ := Prod.mk.injEq .. ▸ h
                        subst h2
                        rw [← hai]
                        exact hsplit4 hg

/-- When the artist is truthy with a truthy genres list and the
playlist lookup returns a nonempty candidate list, the enrichment
attaches one of the candidates as `artist_info["playlist"]`. -/
theorem spotifyEnrich_attaches {P : Providers} {info aid tracks genres g : Json}
    {t1 t2 : List Call} {ps : List Json}
    (htr : info.truthy = true)
    (hid : pyIndexKey info "id" = .ok aid)
    (htt : get_top_tracks P aid = (.ok tracks, t1))
    (hgen : pyGetD info "genres" (.arr []) = .ok genres)
    (hgtr : genres.truthy = true)
    (hidx : pyIndexNat genres 0 = .ok g)
    (hpl : get_playlists_by_genre P g = (.ok (.arr ps), t2))
    (hne : ps ≠ []) :
    ∃ pl info', pl ∈ ps ∧ pySetItem info "playlist" pl = .ok info' ∧
      pyGetD info' "playlist" (.obj []) = .ok pl ∧
      spotifyEnrich P (some info) = (.ok (some info', tracks), t1 ++ t2) := by
  have hlen : 0 < ps.length := List.length_pos.mpr hne
  have hmod : P.randPick % ps.length < ps.length := Nat.mod_lt _ hlen
  have hch : pyChoice (.arr ps) P.randPick =
      .ok (ps.get ⟨P.randPick % ps.length, hmod⟩) := by
    simp only [pyChoice]
    rw [List.getElem?_eq_getElem hmod]
    rfl
  obtain ⟨fs, hinfo⟩ := pyIndexKey_ok_obj hid
  subst hinfo
  refine ⟨ps.get ⟨P.randPick % ps.length, hmod⟩,
    .obj (setField fs "playlist" (ps.get ⟨P.randPick % ps.length, hmod⟩)),
    List.get_mem ps _ hmod, rfl, ?_, ?_⟩
  · simp [pyGetD, lookupField_setField]
  · simp only [spotifyEnrich, htr, hid, htt, hgen, hgtr, hidx, hpl, hch,
      arr_truthy_of_ne_nil hne, pySetItem]
    simp

/-- When the playlist lookup returns no candidate, the enrichment
leaves the artist record unchanged: no playlist is attached. -/
theorem spotifyEnrich_empty_candidates {P : Providers}
    {info aid tracks genres g : Json} {t1 t2 : List Call}
    (htr : info.truthy = true)
    (hid : pyIndexKey info "id" = .ok aid)
    (htt : get_top_tracks P aid = (.ok tracks, t1))
    (hgen : pyGetD info "genres" (.arr []) = .ok genres)
    (hgtr : genres.truthy = true)
    (hidx : pyIndexNat genres 0 = .ok g)
    (hpl : get_playlists_by_genre P g = (.ok (.arr []), t2)) :
    spotifyEnrich P (some info) = (.ok (some info, tracks), t1 ++ t2) := by
  simp only [spotifyEnrich, htr, hid, htt, hgen, hgtr, hidx, hpl]
  simp [Json.truthy]

/-- The `playlist` field of every successfully assembled `event_data`
is exactly the value of `playlistField artist_info`. -/
theorem assembleEvent_playlist {event venue city lat lng w : Json}
    {info : Option Json} {a : Json}
    (h : assembleEvent event venue city lat lng w info = .ok a) :
    ∃ pl, playlistField info = .ok pl ∧ pyIndexKey a "playlist" = .ok pl := by
  unfold assembleEvent at h
  obtain ⟨dates, h1, h⟩ := exBind_ok h
  obtain ⟨start, h2, h⟩ := exBind_ok h
  obtain ⟨date, h3, h⟩ := exBind_ok h
  obtain ⟨venueName, h4, h⟩ := exBind_ok h
  obtain ⟨url, h5, h⟩ := exBind_ok h
  obtain ⟨playlist, h6, h⟩ := exBind_ok h
  have ha := Except.ok.inj h
  subst ha
  exact ⟨playlist, h6, by simp [pyIndexKey, lookupField]⟩

/-- A successful loop iteration produced its event via `assembleEvent`
on the same `artist_info`. -/
theorem processEvent_ok_assembled {P : Providers} {info : Option Json}
    {ev a : Json} {t : List Call} (h : processEvent P info ev = (.ok a, t)) :
    ∃ venue city lat lng w, assembleEvent ev venue city lat lng w info = .ok a := by
  unfold processEvent at h
  cases hec : extractCity ev with
  | error e => simp only [hec] at h; simp at h
  | ok vc =>
    obtain ⟨venue, city⟩ := vc
    simp only [hec] at h
    cases hg : P.geocode city with
    | error e => simp only [hg] at h; simp at h
    | ok gr =>
      simp only [hg] at h
      cases hpg : parseGeo gr with
      | error e => simp only [hpg] at h; simp at h
      | ok ll =>
        obtain ⟨lat, lng⟩ := ll
        simp only [hpg] at h
        cases hgw : get_weather P city with
        | mk wres wt =>
          rw [hgw] at h
          cases wres with
          | error e => simp at h
          | ok w =>
            simp only [] at h
            cases ha : assembleEvent ev venue city lat lng w info with
            | error e => simp [ha] at h
            | ok a0 =>
              simp only [ha] at h
              have haa : a0 = a := by
                have := (Prod.mk.injEq .. ▸ h).1
                exact Except.ok.inj this
              subst haa
              exact ⟨venue, city, lat, lng, w, ha⟩

/-- Every event assembled in one loop run carries the same `playlist`
value, namely `playlistField artist_info` — the selection is made once
before the loop and shared, never re-randomized per event. -/
theorem processEvents_shared_playlist {P : Providers} {info : Option Json} :
    ∀ {evs asm : List Json} {t : List Call},
      processEvents P info evs = (.ok asm, t) →
      ∀ a ∈ asm, ∃ pl, playlistField info = .ok pl ∧
        pyIndexKey a "playlist" = .ok pl := by
  intro evs
  induction evs with
  | nil =>
    intro asm t h a ha
    unfold processEvents at h
    obtain ⟨h1, h2⟩ := Prod.mk.injEq .. ▸ h
    rw [← Except.ok.inj h1] at ha
    simp at ha
  | cons e rest ih =>
    intro asm t h a ha
    unfold processEvents at h
    cases hpe : processEvent P info e with
    | mk pres tt =>
      rw [hpe] at h
      cases pres with
      | error err => simp at h
      | ok ev =>
        cases hrest : processEvents P info rest with
        | mk res2 t2 =>
          rw [hrest] at h
          cases res2 with
          | error err => simp at h
          | ok evs2 =>
            have hasm : ev :: evs2 = asm := by
              have := (Prod.mk.injEq .. ▸ h).1
              exact Except.ok.inj this
            subst hasm
            rcases List.mem_cons.mp ha with rfl | hmem
            · obtain ⟨venue, city, lat, lng, w, hass⟩ :=
                processEvent_ok_assembled (by rw [hpe])
              exact assembleEvent_playlist hass
            · exact ih hrest a hmem

/-- C8: the playlist policy of the orchestrator (src/app.py lines
288-301 and 330-338): a playlist search happens only when the artist
lookup found a truthy identity whose `genres` value is truthy, and then
only for the first genre (no fallback); when the candidate list is
nonempty the attached `artist_info["playlist"]` is one of the
candidates; an empty candidate list leaves the record unchanged; and
every assembled event shares the single previously selected playlist
value, never re-randomized per event. -/
theorem C8_playlist_attachment :
    (∀ (P : Providers) (s : String) (res : Except PyErr AggregationResult)
        (t : List Call), aggregate P s = (res, t) →
        ∀ g : Json, Call.spotifyPlaylistSearch g ∈ t →
        ∃ info t1, get_artist_info P (pyStrip s) = (.ok (some info), t1) ∧
          info.truthy = true ∧
          ∃ genres, pyGetD info "genres" (.arr []) = .ok genres ∧
            genres.truthy = true ∧ pyIndexNat genres 0 = .ok g) ∧
    (∀ (P : Providers) (info aid tracks genres g : Json) (t1 t2 : List Call)
        (ps : List Json),
        info.truthy = true → pyIndexKey info "id" = .ok aid →
        get_top_tracks P aid = (.ok tracks, t1) →
        pyGetD info "genres" (.arr []) = .ok genres →
        genres.truthy = true → pyIndexNat genres 0 = .ok g →
        get_playlists_by_genre P g = (.ok (.arr ps), t2) → ps ≠ [] →
        ∃ pl info', pl ∈ ps ∧ pySetItem info "playlist" pl = .ok info' ∧
          pyGetD info' "playlist" (.obj []) = .ok pl ∧
          spotifyEnrich P (some info) = (.ok (some info', tracks), t1 ++ t2)) ∧
    (∀ (P : Providers) (info aid tracks genres g : Json) (t1 t2 : List Call),
        info.truthy = true → pyIndexKey info "id" = .ok aid →
        get_top_tracks P aid = (.ok tracks, t1) →
        pyGetD info "genres" (.arr []) = .ok genres →
        genres.truthy = true → pyIndexNat genres 0 = .ok g →
        get_playlists_by_genre P g = (.ok (.arr []), t2) →
        spotifyEnrich P (some info) = (.ok (some info, tracks), t1 ++ t2)) ∧
    (∀ (P : Providers) (info : Option Json) (evs asm : List Json)
        (t : List Call), processEvents P info evs = (.ok asm, t) →
        ∀ a ∈ asm, ∃ pl, playlistField info = .ok pl ∧
          pyIndexKey a "playlist" = .ok pl) :=
  ⟨fun _P _s _res _t h g hg => aggregate_playlist_call h (g := g) hg,
   fun _P _info _aid _tracks _genres _g _t1 _t2 _ps htr hid htt hgen hgtr
       hidx hpl hne =>
     spotifyEnrich_attaches htr hid htt hgen hgtr hidx hpl hne,
   fun _P _info _aid _tracks _genres _g _t1 _t2 htr hid htt hgen hgtr
       hidx hpl =>
     spotifyEnrich_empty_candidates htr hid htt hgen hgtr hidx hpl,
   fun _P _info _evs _asm _t h a ha => processEvents_shared_playlist h a ha⟩

/-- Witness for C8, instantiating all four conjuncts on the concrete
behaviours: the full `happyP` aggregation run (whose only playlist
search is for the first genre "rock"), the two-candidate attachment,
the zero-candidate non-attachment of `noPlaylistP`, and the shared
playlist of the two assembled events. -/
theorem C8_playlist_attachment_witness :
    (∃ info t1,
      get_artist_info happyP (pyStrip "Artist X") = (.ok (some info), t1) ∧
      info.truthy = true ∧
      ∃ genres, pyGetD info "genres" (.arr []) = .ok genres ∧
        genres.truthy = true ∧ pyIndexNat genres 0 = .ok (.str "rock")) ∧
    (∃ pl info', pl ∈ [Json.str "pl0", Json.str "pl1"] ∧
      pySetItem artistX "playlist" pl = .ok info' ∧
      pyGetD info' "playlist" (.obj []) = .ok pl ∧
      spotifyEnrich happyP (some artistX) =
        (.ok (some info', .arr [.str "track1", .str "track2"]),
         [.spotifyToken, .spotifyTopTracks (.str "A1"), .spotifyToken,
          .spotifyPlaylistSearch (.str "rock")])) ∧
    (spotifyEnrich noPlaylistP (some artistX) =
      (.ok (some artistX, .arr [.str "track1", .str "track2"]),
       [.spotifyToken, .spotifyTopTracks (.str "A1"), .spotifyToken,
        .spotifyPlaylistSearch (.str "rock")])) ∧
    (∃ pl, playlistField (some artistXPl) = .ok pl ∧
      pyIndexKey assembledA "playlist" = .ok pl) :=
  ⟨C8_playlist_attachment.1 happyP "Artist X"
      (.ok (.success "Artist X" (some artistXPl)
        (.arr [.str "track1", .str "track2"]) [assembledA, assembledB]))
      [.spotifyToken, .spotifyArtistSearch "Artist X", .spotifyToken,
       .spotifyTopTracks (.str "A1"), .spotifyToken,
       .spotifyPlaylistSearch (.str "rock"), .ticketmasterEvents "Artist X",
       .googleGeocode (.str "CityA"), .openWeather (.str "CityA"),
       .googleGeocode (.str "CityB"), .openWeather (.str "CityB")]
      rfl (.str "rock") (by simp),
   C8_playlist_attachment.2.1 happyP artistX (.str "A1")
      (.arr [.str "track1", .str "track2"])
      (.arr [.str "rock", .str "pop"]) (.str "rock")
      [.spotifyToken, .spotifyTopTracks (.str "A1")]
      [.spotifyToken, .spotifyPlaylistSearch (.str "rock")]
      [.str "pl0", .str "pl1"]
      rfl rfl rfl rfl rfl rfl rfl (by simp),
   C8_playlist_attachment.2.2.1 noPlaylistP artistX (.str "A1")
      (.arr [.str "track1", .str "track2"])
      (.arr [.str "rock", .str "pop"]) (.str "rock")
      [.spotifyToken, .spotifyTopTracks (.str "A1")]
      [.spotifyToken, .spotifyPlaylistSearch (.str "rock")]
      rfl rfl rfl rfl rfl rfl rfl,
   C8_playlist_attachment.2.2.2 happyP (some artistXPl) [eventA, eventB]
      [assembledA, assembledB]
      [.googleGeocode (.str "CityA"), .openWeather (.str "CityA"),
       .googleGeocode (.str "CityB"), .openWeather (.str "CityB")]
      rfl assembledA (by simp)⟩

/-- Counterexample to C10 as stated: when the first geocode candidate
carries `"lat": null` next to `"lng": 3`, the orchestrator copies both
values verbatim (src/app.py lines 323-324), producing an assembled
event whose latitude is absent while its longitude is present. -/
theorem C10_counterexample :
    (processEvent halfGeoP none eventA).fst =
      .ok (.obj [("city", .str "CityA"), ("date", .str "2026-01-01"),
        ("venue", .str "Stadium A"), ("tickets_url", .str "http://tickets/a"),
        ("weather", weatherSnapA),
        ("location", .obj [("lat", .null), ("lng", .num 3)]),
        ("playlist", .obj [])]) ∧
    Json.num 3 ≠ Json.null :=
  ⟨rfl, by simp⟩

end MusicaEvents
